import Mathlib

/-!
Verification of the wb-update-manager release-transition core.

The Python sources (wb/update_manager/release.py and bullseye.py) are
shallowly embedded: pure functions become Lean functions over String and
List Char; file contents are modelled as Strings; fallible code returns
Except PyExc; the process-exit cleanup registry (atexit) is an explicit
list of actions interpreted over a small file-system record.
-/

/-! ## Python string primitives (modelled after CPython semantics) -/

def charIn (cs : List Char) (c : Char) : Bool := cs.contains c

/-- str.strip(cs): drop chars of `cs` from both ends. -/
def pyStripCharsL (cs : List Char) (l : List Char) : List Char :=
  ((l.dropWhile (charIn cs)).reverse.dropWhile (charIn cs)).reverse

def pyStripChars (cs : String) (s : String) : String :=
  String.mk (pyStripCharsL cs.data s.data)

/-- str.rstrip(cs): drop chars of `cs` from the right end. -/
def pyRstripChars (cs : String) (s : String) : String :=
  String.mk ((s.data.reverse.dropWhile (charIn cs.data)).reverse)

/-- Python whitespace set used by str.strip() / str.rstrip(). -/
def pyWhitespace : List Char :=
  [Char.ofNat 32, Char.ofNat 9, Char.ofNat 10, Char.ofNat 13, Char.ofNat 11, Char.ofNat 12]

/-- str.strip() with no argument. -/
def pyStrip (s : String) : String := String.mk (pyStripCharsL pyWhitespace s.data)

/-- str.rstrip() with no argument. -/
def pyRstrip (s : String) : String :=
  String.mk ((s.data.reverse.dropWhile (charIn pyWhitespace)).reverse)

/-- Split a char list at every occurrence of `sep` (no maxsplit). -/
def splitChL (sep : Char) : List Char → List (List Char)
  | [] => [[]]
  | c :: cs =>
    if c = sep then [] :: splitChL sep cs
    else
      match splitChL sep cs with
      | [] => [[c]]
      | l :: ls => (c :: l) :: ls

def pySplitAll (sep : Char) (s : String) : List String :=
  (splitChL sep s.data).map String.mk

/-- Iterating over an open text file in Python yields its lines; there is
no trailing empty line when the content ends with a newline. -/
def pyLines (s : String) : List String :=
  let ls := pySplitAll (Char.ofNat 10) s
  match ls.getLast? with
  | some l => if l = "" then ls.dropLast else ls
  | none => ls

/-- Accumulator loop of str.split(sep, maxsplit). -/
def pySplitGo (sep : Char) : List Char → Nat → List Char → List String
  | [], _, acc => [String.mk acc.reverse]
  | c :: cs, n, acc =>
    if c = sep then
      match n with
      | 0 => [String.mk (acc.reverse ++ c :: cs)]
      | Nat.succ m => String.mk acc.reverse :: pySplitGo sep cs m []
    else pySplitGo sep cs n (c :: acc)

/-- str.split(sep, maxsplit) for a single-char separator. -/
def pySplitChar (sep : Char) (maxsplit : Nat) (s : String) : List String :=
  pySplitGo sep s.data maxsplit []

/-- Split at the first occurrence of `sep`; `none` when `sep` is absent
(models the ValueError of `key, value = s.split(sep, 1)`). -/
def splitOnceL (sep : Char) : List Char → Option (List Char × List Char)
  | [] => none
  | c :: cs =>
    if c = sep then some ([], cs)
    else (splitOnceL sep cs).map (fun p => (c :: p.1, p.2))

def pySplitOnce (sep : Char) (s : String) : Option (String × String) :=
  (splitOnceL sep s.data).map (fun p => (String.mk p.1, String.mk p.2))

/-- line.partition(sep)[0] for a single-char separator. -/
def pyTakeBefore (sep : Char) (s : String) : String :=
  String.mk (s.data.takeWhile (fun c => !(c == sep)))

def pyStartsWith (p s : String) : Bool := List.isPrefixOf p.data s.data

def pyToLower (s : String) : String := String.mk (s.data.map Char.toLower)

/-! ## Data model (release.py lines 21-42) -/

structure ReleaseInfo where
  release_name : String
  suite : String
  target : String
  repo_pref : String
deriving DecidableEq

structure SystemState where
  suite : String
  target : String
  repo_pref : String
  consistent : Bool
deriving DecidableEq

/-- The Python exception universe of the program. -/
inductive PyExc where
  | userAbort
  | keyboardInterrupt
  | calledProcessError (cmd : List String) (code : Int)
  | impossibleUpdate
  | noSuiteInfo
  | indexError
  | valueError
  | typeError
  | httpError (code : Nat)
  | urlError
deriving DecidableEq

def WB_ORIGIN : String := "wirenboard"
def DEFAULT_REPO_URL : String := "http://deb.wirenboard.com/"
def WB_SOURCES_LIST_FILENAME : String := "/etc/apt/sources.list.d/wirenboard.list"
def WB_RELEASE_APT_PREFERENCES_FILENAME : String := "/etc/apt/preferences.d/20wb-release"
def WB_TEMP_UPGRADE_PREFERENCES_FILENAME : String := "/etc/apt/preferences.d/00wb-release-upgrade-temp"

def RETCODE_OK : Int := 0
def RETCODE_USER_ABORT : Int := 1
def RETCODE_FAULT : Int := 2
def RETCODE_NO_TARGET : Int := 3
def RETCODE_EINVAL : Int := 22

def exceptToSum {e a : Type} : Except e a → Sum e a
  | Except.error x => Sum.inl x
  | Except.ok x => Sum.inr x

instance {e a : Type} [DecidableEq e] [DecidableEq a] : DecidableEq (Except e a) := fun x y =>
  decidable_of_iff (exceptToSum x = exceptToSum y)
    (by cases x <;> cases y <;> simp [exceptToSum])

/-! ## get_target_state (release.py lines 142-160).
The repo_prefix field is rendered here as `repo_pref`. -/

def get_target_state (old_state : SystemState) (reset_url : Bool)
    (pfx target_release : String) : Except PyExc SystemState :=
  if reset_url = true ∧ pfx ≠ "" then Except.error PyExc.impossibleUpdate
  else
    let new_pfx := if reset_url = true then "" else if pfx ≠ "" then pfx else old_state.repo_pref
    let new_suite := if target_release ≠ "" then target_release else old_state.suite
    Except.ok ⟨new_suite, old_state.target, pyStripChars " /" new_pfx, true⟩

/-- Follows the spec wording "trimmed of leading/trailing slashes and
whitespace": trimming both slashes and every whitespace character.  To be
compared with the code's trimming, which is `strip(' /')` (space and slash
only). -/
def spec_trim_slash_whitespace (s : String) : String :=
  String.mk (pyStripCharsL (Char.ofNat 47 :: pyWhitespace) s.data)

/-! ## read_wb_release_file (release.py lines 107-116) -/

/-- value.strip('"').strip("'") on the right-hand side of a key=value line. -/
def stripQuotes (v : String) : String :=
  pyStripChars (String.mk [Char.ofNat 39]) (pyStripChars (String.mk [Char.ofNat 34]) v)

/-- One iteration of the read loop: `none` for a comment line, a
(lowercased key, unquoted value) pair otherwise.  An empty stripped line
hits `line[0]` (IndexError); a non-comment line without '=' hits the
two-target unpacking of split('=', 1) (ValueError). -/
def parse_release_line (line : String) : Except PyExc (Option (String × String)) :=
  match (pyStrip line).data.head? with
  | none => Except.error PyExc.indexError
  | some c =>
    if c = Char.ofNat 35 then Except.ok none
    else
      match pySplitOnce (Char.ofNat 61) (pyStrip line) with
      | some (k, v) => Except.ok (some (pyToLower k, stripQuotes v))
      | none => Except.error PyExc.valueError

def dictKeys (d : List (String × String)) : List String := d.map Prod.fst

def dictGet (d : List (String × String)) (k : String) : Option String :=
  (d.find? (fun p => p.1 = k)).map Prod.snd

/-- dict assignment d[k] = v (overwrite in place, append when new). -/
def dictSet (d : List (String × String)) (k v : String) : List (String × String) :=
  if (dictKeys d).contains k then d.map (fun p => if p.1 = k then (k, v) else p)
  else d ++ [(k, v)]

def readFold : List (String × String) → List String → Except PyExc (List (String × String))
  | d, [] => Except.ok d
  | d, l :: ls =>
    match parse_release_line l with
    | Except.error e => Except.error e
    | Except.ok none => readFold d ls
    | Except.ok (some (k, v)) => readFold (dictSet d k v) ls

def wbKeyNames : List String := ["release_name", "suite", "target", "repo_prefix"]

/-- ReleaseInfo(**d): requires the dict keys to be exactly the four field
names, otherwise TypeError. -/
def release_info_of_dict (d : List (String × String)) : Except PyExc ReleaseInfo :=
  match dictGet d "release_name", dictGet d "suite", dictGet d "target", dictGet d "repo_prefix" with
  | some rn, some su, some tg, some rp =>
    if d.all (fun p => wbKeyNames.contains p.1) then Except.ok ⟨rn, su, tg, rp⟩
    else Except.error PyExc.typeError
  | _, _, _, _ => Except.error PyExc.typeError

def read_wb_release_file (content : String) : Except PyExc ReleaseInfo :=
  match readFold [] (pyLines content) with
  | Except.error e => Except.error e
  | Except.ok d => release_info_of_dict d

/-! ## read_apt_sources_list_suite (release.py lines 119-127) -/

def sourcesSuiteLines : List String → Except PyExc String
  | [] => Except.error PyExc.noSuiteInfo
  | l :: ls =>
    let line := pyRstrip (pyTakeBefore (Char.ofNat 35) l)
    if pyStartsWith "deb http" line then
      match (pySplitChar (Char.ofNat 32) 4 line).get? 2 with
      | some s => Except.ok s
      | none => Except.error PyExc.indexError
    else sourcesSuiteLines ls

/-- The sources-list file is modelled by its content. -/
def read_apt_sources_list_suite (content : String) : Except PyExc String :=
  sourcesSuiteLines (pyLines content)

/-! ## get_current_state (release.py lines 130-139).
A missing sources-list file is the `none` case (os.path.exists gate;
the function then raises NoSuiteInfoError, caught by the caller). -/

def get_current_state (wb_content : String) (sources_content : Option String) :
    Except PyExc SystemState :=
  match read_wb_release_file wb_content with
  | Except.error e => Except.error e
  | Except.ok ri =>
    match sources_content with
    | none => Except.ok ⟨ri.suite, ri.target, ri.repo_pref, false⟩
    | some c =>
      match read_apt_sources_list_suite c with
      | Except.ok s => Except.ok ⟨ri.suite, ri.target, ri.repo_pref, decide (ri.suite = s)⟩
      | Except.error PyExc.noSuiteInfo => Except.ok ⟨ri.suite, ri.target, ri.repo_pref, false⟩
      | Except.error e => Except.error e

/-! ## URL and config-file generators (release.py lines 163-209).
File-writing generators are modelled by the content they write. -/

def make_full_repo_url (state : SystemState) (base_url : String) : String :=
  let b := pyStripChars " /" base_url
  let p := pyRstripChars " /" ("/" ++ state.repo_pref)
  b ++ p ++ "/" ++ state.target

def sourcesHeader : String :=
  "# This file is automatically generated by wb-release.\n# DO NOT EDIT THIS FILE!\n#\n# If you want to switch to testing, use command\n#   wb-release -t testing\n"

def generate_sources_list (state : SystemState) (base_url : String) : String :=
  sourcesHeader ++ "deb " ++ make_full_repo_url state base_url ++ " " ++ state.suite ++ " main"

def generate_release_apt_preferences (state : SystemState) (origin : String) : String :=
  sourcesHeader ++ "Package: *\nPin: release o=" ++ origin ++ ", a=" ++ state.suite
    ++ "\nPin-Priority: 990"

def generate_tmp_apt_preferences (target_state : SystemState) (origin : String) : String :=
  "# This file is automatically generated by wb-release.\n# DO NOT EDIT THIS FILE!\nPackage: *\nPin: release o="
    ++ origin ++ ", a=" ++ target_state.suite
    ++ "\nPin-Priority: 1010\n\nPackage: *\nPin: release o=wirenboard\nPin-Priority: -10"

/-! ## release_exists (release.py lines 315-329).
The urlopen call is abstracted into a probe oracle on the URL. -/

inductive ProbeResult where
  | success
  | httpErrorCode (code : Nat)
  | failure (e : PyExc)
deriving DecidableEq

def release_exists (probe : String → ProbeResult) (state : SystemState) : Except PyExc Bool :=
  match probe (make_full_repo_url state DEFAULT_REPO_URL ++ "/dists/" ++ state.suite ++ "/Release") with
  | ProbeResult.success => Except.ok true
  | ProbeResult.httpErrorCode c =>
    if 400 ≤ c ∧ c < 500 then Except.ok false else Except.error (PyExc.httpError c)
  | ProbeResult.failure e => Except.error e

/-! ## the command runner / run_apt / update_system (release.py lines 332-354, 368-409).
External processes are abstracted by their exit code. -/

def run_command (args : List String) (retcode : Int) : Except PyExc Unit :=
  if retcode = 0 then Except.ok () else Except.error (PyExc.calledProcessError args retcode)

def aptExtraArgs : List String :=
  ["-o", "Dpkg::Options::=--force-confdef", "-o", "Dpkg::Options::=--force-confold", "--allow-downgrades"]

def run_apt (cmd : List String) (retcode : Int) : Except PyExc Unit :=
  match run_command (["apt-get", "-q"] ++ cmd ++ aptExtraArgs) retcode with
  | Except.ok _ => Except.ok ()
  | Except.error (PyExc.calledProcessError c r) =>
    if r = 1 then Except.error PyExc.userAbort
    else Except.error (PyExc.calledProcessError c r)
  | Except.error e => Except.error e

/-- The except-clauses of update_system: UserAbortException and
KeyboardInterrupt give the user-abort code, CalledProcessError propagates
its own exit code, everything else gives the generic fault code. -/
def update_system_catch : PyExc → Int
  | PyExc.userAbort => RETCODE_USER_ABORT
  | PyExc.keyboardInterrupt => RETCODE_USER_ABORT
  | PyExc.calledProcessError _ c => c
  | _ => RETCODE_FAULT

/-- update_system over the delegated stage outcome (an exit code on normal
return, a raised exception otherwise). -/
def update_system (stage : Except PyExc Int) : Int :=
  match stage with
  | Except.ok r => r
  | Except.error e => update_system_catch e

/-! ## Stage 2 of the release transition (release.py lines 269-312).
On-disk configuration is modelled by `FS`; the atexit registry by a list
of `ExitAction` (most recently registered first, as atexit runs LIFO). -/

structure FS where
  sources : String
  prefs : String
  tmp : Option String
  aptListsPresent : Bool
deriving DecidableEq

inductive ExitAction where
  | restoreConfig (st : SystemState)
  | cleanupTmpPrefs
deriving DecidableEq

def isRestore : ExitAction → Bool
  | ExitAction.restoreConfig _ => true
  | ExitAction.cleanupTmpPrefs => false

/-- generate_system_config (release.py lines 234-239) as an FS update. -/
def apply_system_config (st : SystemState) (fs : FS) : FS :=
  { fs with sources := generate_sources_list st DEFAULT_REPO_URL,
            prefs := generate_release_apt_preferences st WB_ORIGIN }

/-- _restore_system_config (lines 226-231): regenerate both files from the
original state, then wipe the apt list cache. -/
def runExitAction (fs : FS) : ExitAction → FS
  | ExitAction.restoreConfig st => { apply_system_config st fs with aptListsPresent := false }
  | ExitAction.cleanupTmpPrefs => { fs with tmp := none }

def runAtexit (reg : List ExitAction) (fs : FS) : FS := reg.foldl runExitAction fs

/-- user_confirm (lines 90-104): the interactive answer is an oracle. -/
def user_confirm (assume_yes userYes : Bool) : Except PyExc Unit :=
  if assume_yes then Except.ok ()
  else if userYes then Except.ok ()
  else Except.error PyExc.userAbort

/-- Oracles for the fallible steps of stage 2: the confirmation answer,
the run_system_update outcome (update + dist-upgrade, including the inner
confirmation), the autoremove outcome and the wb-rules restart outcome. -/
structure Stage2Out where
  userYes : Bool
  sysUpdate : Except PyExc Unit
  autoremoveRes : Except PyExc Unit
  rcRestart : Except PyExc Unit

def update_second_stage (state old_state : SystemState) (assume_yes : Bool)
    (out : Stage2Out) (fs : FS) : Except PyExc Unit × FS × List ExitAction :=
  match user_confirm assume_yes out.userYes with
  | Except.error e => (Except.error e, fs, [])
  | Except.ok _ =>
    let fs1 := if state ≠ old_state then apply_system_config state fs else fs
    let reg1 : List ExitAction :=
      if state ≠ old_state then [ExitAction.restoreConfig old_state] else []
    let fs2 := { fs1 with tmp := some (generate_tmp_apt_preferences state WB_ORIGIN) }
    let reg2 := ExitAction.cleanupTmpPrefs :: reg1
    match out.sysUpdate with
    | Except.error e => (Except.error e, fs2, reg2)
    | Except.ok _ =>
      let reg3 := reg2.filter (fun a => !(isRestore a))
      match out.autoremoveRes with
      | Except.error e => (Except.error e, fs2, reg3)
      | Except.ok _ => (Except.ok (), fs2, reg3)

/-- The whole stage-2 process: run the stage, classify the outcome as
update_system does, then fire the atexit registry at process exit. -/
def stage2_run (state old_state : SystemState) (assume_yes : Bool)
    (out : Stage2Out) (fs : FS) : Int × FS :=
  let r := update_second_stage state old_state assume_yes out fs
  let code : Int :=
    match r.1 with
    | Except.ok _ => RETCODE_OK
    | Except.error e => update_system_catch e
  (code, runAtexit r.2.2 r.2.1)

/-! ## route (release.py lines 594-634).
The two heavyweight branches the claims never enter are parameters
(debianK for upgrade_new_debian_release, proceedK for the trailing
release_exists + update_system sequence), so theorems about the other
branches hold for every behaviour of those continuations. -/

inductive Effect where
  | fileWrite (path : String) (content : String)
  | extCommand (argv : List String)
  | netProbe (url : String)
deriving DecidableEq

structure RouteArgs where
  noArgs : Bool
  version : Bool
  update_debian_release : Bool
  regenerate : Bool
  reset_packages : Bool
  reset_url : Bool
  pfx : String
  target_release : String
  second_stage : Bool
  assume_yes : Bool

def route (args : RouteArgs) (wb_content : String) (sources_content : Option String)
    (debianK : SystemState → Except PyExc (Int × List Effect))
    (proceedK : SystemState → SystemState → Bool → Except PyExc (Int × List Effect)) :
    Except PyExc (Int × List Effect) :=
  if args.noArgs ∨ args.version then Except.ok (RETCODE_OK, [])
  else
    match get_current_state wb_content sources_content with
    | Except.error e => Except.error e
    | Except.ok current =>
      if args.update_debian_release then debianK current
      else if args.regenerate then
        Except.ok (RETCODE_OK,
          [Effect.fileWrite WB_SOURCES_LIST_FILENAME (generate_sources_list current DEFAULT_REPO_URL),
           Effect.fileWrite WB_RELEASE_APT_PREFERENCES_FILENAME (generate_release_apt_preferences current WB_ORIGIN)])
      else if args.reset_packages then
        if args.reset_url ∨ args.pfx ≠ "" ∨ args.target_release ≠ "" then
          Except.ok (RETCODE_EINVAL, [])
        else proceedK current current true
      else
        match get_target_state current args.reset_url args.pfx args.target_release with
        | Except.error e => Except.error e
        | Except.ok target =>
          if target = current then Except.ok (RETCODE_OK, [])
          else proceedK target current args.second_stage

/-! ## The bullseye major transition (bullseye.py lines 300-416).
The progress flag file is modelled by an `Option String` (absent or its
content); chronologically ordered flag/upgrade events are traced. -/

/-- make_new_state (bullseye.py lines 300-302). -/
def make_new_state (s : SystemState) : SystemState :=
  { s with target := ((pySplitChar (Char.ofNat 47) 1 s.target).headD "") ++ "/bullseye" }

inductive BEv where
  | flagWrite (v : String)
  | flagRemove
  | upgradeStart
deriving DecidableEq

/-- Oracles for the fallible parts of upgrade_new_debian_release: the
free-space check, the outcome of the preliminary tool-upgrade stage (an
`ok` means os.execvp replaced the process image), the network probe and
the outcome of actual_upgrade. -/
structure BWorld where
  freeSpace : Bool
  prelim : Except PyExc Unit
  probe : String → ProbeResult
  upgradeRes : Except PyExc Unit

/-- upgrade_new_debian_release (bullseye.py lines 362-416).  Returns the
exit code, the final progress-flag file and the event trace.
set_global_progress_flag v is the event `BEv.flagWrite v` plus the flag
update; set_global_progress_flag None removes the flag file. -/
def upgrade_new_debian_release (state : SystemState) (no_preliminary_update : Bool)
    (w : BWorld) (flag0 : Option String) : Int × Option String × List BEv :=
  if !w.freeSpace then (1, flag0, [])
  else if !no_preliminary_update then
    match w.prelim with
    | Except.ok _ => (0, flag0, [])
    | Except.error e =>
      let r := update_system_catch e
      if r = RETCODE_OK then (r, flag0, [])
      else (r, some "error", [BEv.flagWrite "error"])
  else
    match release_exists w.probe (make_new_state state) with
    | Except.ok false => (RETCODE_NO_TARGET, flag0, [])
    | Except.ok true =>
      match w.upgradeRes with
      | Except.ok _ =>
        (RETCODE_OK, none, [BEv.flagWrite "progress", BEv.upgradeStart, BEv.flagRemove])
      | Except.error e =>
        let r := update_system_catch e
        if r = RETCODE_OK then (r, some "progress", [BEv.flagWrite "progress", BEv.upgradeStart])
        else (r, some "error", [BEv.flagWrite "progress", BEv.upgradeStart, BEv.flagWrite "error"])
    | Except.error e =>
      let r := update_system_catch e
      if r = RETCODE_OK then (r, flag0, [])
      else (r, some "error", [BEv.flagWrite "error"])

/-! # Claims -/

/-- C2 (amended): for every current SystemState and every argument
combination except reset_url together with a non-empty prefix,
get_target_state returns a state whose repo_prefix is "" if reset_url,
else the given prefix if non-empty, else the current prefix, trimmed of
leading/trailing slashes and SPACE characters (strip(' /'); other
whitespace such as tabs is not trimmed); whose suite is target_release if
non-empty, else the current suite; whose target is carried over; and
whose consistent field is true. -/
theorem get_target_state_spec (s : SystemState) (ru : Bool) (pfx tr : String)
    (h : ¬ (ru = true ∧ pfx ≠ "")) :
    get_target_state s ru pfx tr =
      Except.ok ⟨(if tr ≠ "" then tr else s.suite),
                 s.target,
                 pyStripChars " /" (if ru = true then "" else if pfx ≠ "" then pfx else s.repo_pref),
                 true⟩ := by
  rw [get_target_state, if_neg h]

/-- Witness for C2 at a concrete input. -/
theorem get_target_state_spec_witness :
    ¬ ((false : Bool) = true ∧ (" dev/ " : String) ≠ "") ∧
    get_target_state ⟨"testing", "wb6/stretch", "old", true⟩ false " dev/ " "stable" =
      Except.ok ⟨"stable", "wb6/stretch", "dev", true⟩ := by
  refine ⟨by decide, ?_⟩
  rw [get_target_state_spec ⟨"testing", "wb6/stretch", "old", true⟩ false " dev/ " "stable" (by decide)]
  decide

/-- C2 counterexample: the code trims only spaces and slashes
(strip(' /')); a prefix with a leading tab is not trimmed of whitespace
as the claim states. -/
theorem get_target_state_tab_not_trimmed :
    get_target_state ⟨"stable", "wb6/stretch", "", true⟩ false "\tdev" "" ≠
      Except.ok ⟨"stable", "wb6/stretch", spec_trim_slash_whitespace "\tdev", true⟩ ∧
    get_target_state ⟨"stable", "wb6/stretch", "", true⟩ false "\tdev" "" =
      Except.ok ⟨"stable", "wb6/stretch", "\tdev", true⟩ := by
  exact ⟨by decide, by decide⟩

/-- C3 (confirmed): for every current SystemState and every non-empty
prefix, get_target_state with reset_url=true fails with
ImpossibleUpdateError; being the first statement of the pure function,
no part of the result is computed and nothing is mutated. -/
theorem get_target_state_reset_conflict (s : SystemState) (pfx tr : String)
    (h : pfx ≠ "") :
    get_target_state s true pfx tr = Except.error PyExc.impossibleUpdate := by
  rw [get_target_state, if_pos ⟨rfl, h⟩]

/-- Witness for C3 at a concrete input. -/
theorem get_target_state_reset_conflict_witness :
    ("x" : String) ≠ "" ∧
    get_target_state ⟨"stable", "wb6/stretch", "", true⟩ true "x" "testing" =
      Except.error PyExc.impossibleUpdate :=
  ⟨by decide, get_target_state_reset_conflict ⟨"stable", "wb6/stretch", "", true⟩ "x" "testing" (by decide)⟩

/-- C8 (amended): for every current SystemState whose repo_prefix is
already trimmed (strip(' /') leaves it unchanged), get_target_state with
target_release equal to the current suite and no prefix change returns
the current state with consistent set to true.  Without that hypothesis
the prefix gets trimmed and the state differs. -/
theorem get_target_state_idempotent (s : SystemState)
    (h : pyStripChars " /" s.repo_pref = s.repo_pref) :
    get_target_state s false "" s.suite = Except.ok { s with consistent := true } := by
  rw [get_target_state, if_neg (by simp)]
  simp [ite_self, h]

/-- Witness for C8 at a concrete input. -/
theorem get_target_state_idempotent_witness :
    pyStripChars " /" "dev" = "dev" ∧
    get_target_state ⟨"stable", "wb6/stretch", "dev", false⟩ false "" "stable" =
      Except.ok ⟨"stable", "wb6/stretch", "dev", true⟩ :=
  ⟨by decide, get_target_state_idempotent ⟨"stable", "wb6/stretch", "dev", false⟩ (by decide)⟩

/-- C8 counterexample: when the current repo_prefix carries leading or
trailing spaces/slashes (get_current_state does not trim what it reads),
the result is not the current state with consistent=true: the prefix
comes back trimmed. -/
theorem get_target_state_idempotent_fails_untrimmed :
    get_target_state ⟨"stable", "wb6/stretch", " foo/", false⟩ false "" "stable" ≠
      Except.ok { (⟨"stable", "wb6/stretch", " foo/", false⟩ : SystemState) with consistent := true } ∧
    get_target_state ⟨"stable", "wb6/stretch", " foo/", false⟩ false "" "stable" =
      Except.ok ⟨"stable", "wb6/stretch", "foo", true⟩ := by
  exact ⟨by decide, by decide⟩

/-- C5 (confirmed): release_exists returns false without raising when the
probe yields an HTTP error with code in [400, 500); returns true when the
probe succeeds; and propagates any other failure (HTTP 5xx and other
codes outside [400,500) as HTTPError, network errors and timeouts as the
underlying exception) rather than interpreting it as absence. -/
theorem release_exists_classifies (state : SystemState) (r : ProbeResult) :
    release_exists (fun _ => r) state =
      match r with
      | ProbeResult.success => Except.ok true
      | ProbeResult.httpErrorCode c =>
        if 400 ≤ c ∧ c < 500 then Except.ok false else Except.error (PyExc.httpError c)
      | ProbeResult.failure e => Except.error e := by
  cases r <;> rfl

/-- C6 (confirmed): update_system classifies every failure exactly once:
UserAbortException and KeyboardInterrupt both return RETCODE_USER_ABORT;
a CalledProcessError returns that command's own exit code; run_apt remaps
exit code 1 of the package manager to the user-abort outcome; every other
exception returns RETCODE_FAULT (the function is total over the
exception universe, so no exception escapes). -/
theorem update_system_classification :
    (update_system (Except.error PyExc.userAbort) = RETCODE_USER_ABORT) ∧
    (update_system (Except.error PyExc.keyboardInterrupt) = RETCODE_USER_ABORT) ∧
    (∀ cmd c, update_system (Except.error (PyExc.calledProcessError cmd c)) = c) ∧
    (∀ e : PyExc, e ≠ PyExc.userAbort → e ≠ PyExc.keyboardInterrupt →
      (∀ cmd c, e ≠ PyExc.calledProcessError cmd c) →
      update_system (Except.error e) = RETCODE_FAULT) ∧
    (∀ cmd r, r ≠ 0 →
      update_system (Except.map (fun _ => RETCODE_OK) (run_apt cmd r)) =
        if r = 1 then RETCODE_USER_ABORT else r) := by
  refine ⟨rfl, rfl, fun cmd c => rfl, ?_, ?_⟩
  · intro e h1 h2 h3
    cases e <;> first
      | rfl
      | exact absurd rfl h1
      | exact absurd rfl h2
      | exact absurd rfl (h3 _ _)
  · intro cmd r hr
    by_cases h1 : r = 1
    · subst h1
      simp [run_apt, run_command, update_system, update_system_catch, Except.map]
    · simp [run_apt, run_command, update_system, update_system_catch, Except.map, hr, h1]

/-- Witness for C6 at concrete inputs. -/
theorem update_system_classification_witness :
    update_system (Except.map (fun _ => RETCODE_OK) (run_apt ["dist-upgrade"] 100)) = 100 ∧
    update_system (Except.map (fun _ => RETCODE_OK) (run_apt ["update"] 1)) = RETCODE_USER_ABORT ∧
    update_system (Except.error PyExc.noSuiteInfo) = RETCODE_FAULT := by
  refine ⟨?_, ?_, ?_⟩
  · have h := update_system_classification.2.2.2.2 ["dist-upgrade"] 100 (by decide)
    rw [if_neg (by decide)] at h
    exact h
  · have h := update_system_classification.2.2.2.2 ["update"] 1 (by decide)
    rw [if_pos rfl] at h
    exact h
  · exact update_system_classification.2.2.2.1 PyExc.noSuiteInfo (by decide) (by decide)
      (fun cmd c => by simp)

/-- C1 (amended): during a stage-2 transition with target ≠ current, if
the package-manager run fails before the commit point (the deregistration
of the rollback action), the exit-path cleanup regenerates both config
files from the pre-transition state; they equal the pre-transition
content byte-for-byte provided that content was itself exactly the
generator's output for that state (the rollback regenerates, it does not
restore saved bytes). -/
theorem stage2_rollback (state old_state : SystemState) (ay : Bool) (out : Stage2Out)
    (fs : FS) (e : PyExc)
    (hne : state ≠ old_state)
    (hconfirm : user_confirm ay out.userYes = Except.ok ())
    (hfail : out.sysUpdate = Except.error e)
    (hs : fs.sources = generate_sources_list old_state DEFAULT_REPO_URL)
    (hp : fs.prefs = generate_release_apt_preferences old_state WB_ORIGIN) :
    (stage2_run state old_state ay out fs).2.sources = fs.sources ∧
    (stage2_run state old_state ay out fs).2.prefs = fs.prefs := by
  unfold stage2_run update_second_stage
  simp only [hconfirm, hfail, if_pos hne]
  simp [runAtexit, runExitAction, apply_system_config, hs, hp]

/-- Witness for C1 at a concrete input. -/
theorem stage2_rollback_witness :
    (stage2_run ⟨"testing", "wb6/stretch", "", true⟩ ⟨"stable", "wb6/stretch", "", true⟩ true
      ⟨true, Except.error (PyExc.calledProcessError ["apt-get"] 100), Except.ok (), Except.ok ()⟩
      ⟨generate_sources_list ⟨"stable", "wb6/stretch", "", true⟩ DEFAULT_REPO_URL,
       generate_release_apt_preferences ⟨"stable", "wb6/stretch", "", true⟩ WB_ORIGIN,
       none, true⟩).2.sources =
      generate_sources_list ⟨"stable", "wb6/stretch", "", true⟩ DEFAULT_REPO_URL ∧
    (stage2_run ⟨"testing", "wb6/stretch", "", true⟩ ⟨"stable", "wb6/stretch", "", true⟩ true
      ⟨true, Except.error (PyExc.calledProcessError ["apt-get"] 100), Except.ok (), Except.ok ()⟩
      ⟨generate_sources_list ⟨"stable", "wb6/stretch", "", true⟩ DEFAULT_REPO_URL,
       generate_release_apt_preferences ⟨"stable", "wb6/stretch", "", true⟩ WB_ORIGIN,
       none, true⟩).2.prefs =
      generate_release_apt_preferences ⟨"stable", "wb6/stretch", "", true⟩ WB_ORIGIN :=
  stage2_rollback _ _ _ _ _ (PyExc.calledProcessError ["apt-get"] 100)
    (by decide) rfl rfl rfl rfl

/-- C1 counterexample: when the pre-transition repository-list file is
not the generator's output for the current state (e.g. hand-edited), the
post-failure content differs from the pre-transition bytes: rollback
rewrites the generated text instead of restoring what was there. -/
theorem stage2_rollback_not_byte_exact :
    (stage2_run ⟨"testing", "wb6/stretch", "", true⟩ ⟨"stable", "wb6/stretch", "", true⟩ true
      ⟨true, Except.error (PyExc.calledProcessError ["apt-get"] 100), Except.ok (), Except.ok ()⟩
      ⟨"# custom sources list", "# custom preferences", none, true⟩).2.sources ≠
      "# custom sources list" := by decide

/-- C4 (confirmed): whenever route takes the target-computation path (not
version/banner, not the debian-release path, not regenerate, not
reset-packages) and the computed target equals the current state, route
returns RETCODE_OK with an empty effect trace, for every behaviour of the
remaining continuations — so no file is written, no external command runs,
and in particular no remote probe and no package-manager run happen. -/
theorem route_noop (args : RouteArgs) (wb_content : String) (sources_content : Option String)
    (debianK : SystemState → Except PyExc (Int × List Effect))
    (proceedK : SystemState → SystemState → Bool → Except PyExc (Int × List Effect))
    (current : SystemState)
    (h0 : args.noArgs = false) (h1 : args.version = false)
    (h2 : args.update_debian_release = false) (h3 : args.regenerate = false)
    (h4 : args.reset_packages = false)
    (hcur : get_current_state wb_content sources_content = Except.ok current)
    (htgt : get_target_state current args.reset_url args.pfx args.target_release =
      Except.ok current) :
    route args wb_content sources_content debianK proceedK = Except.ok (RETCODE_OK, []) := by
  rw [route, if_neg (by simp [h0, h1])]
  simp only [hcur, h2, h3, h4, htgt, Bool.false_eq_true, if_false, if_pos rfl, if_true]

/-- Witness for C4 at a concrete input. -/
theorem route_noop_witness :
    route ⟨false, false, false, false, false, false, "", "", false, false⟩
      "release_name=wb2301\nsuite=stable\ntarget=wb6/stretch\nrepo_prefix="
      (some "deb http://deb.wirenboard.com/wb6/stretch stable main")
      (fun _ => Except.ok (RETCODE_FAULT, [Effect.netProbe "x"]))
      (fun _ _ _ => Except.ok (RETCODE_FAULT, [Effect.netProbe "y"])) =
      Except.ok (RETCODE_OK, []) :=
  route_noop _ _ _ _ _ ⟨"stable", "wb6/stretch", "", true⟩ rfl rfl rfl rfl rfl
    (by decide) (by decide)

/-- C9 (amended): in upgrade_new_debian_release with the preliminary
stage skipped, free space sufficient and the target release present, the
progress flag file is written with "progress" before the actual
transition starts; on success it is removed; and on any failing outcome
of the transition (whose mapped exit code is non-zero, as every real one
is) the flag is left containing "error".  The two precondition stops
(free space, target absent) return without touching the flag, as do
preliminary-stage failures that never wrote "progress" yet still leave
"error". -/
theorem upgrade_debian_progress_flag (state : SystemState) (w : BWorld) (flag0 : Option String)
    (hspace : w.freeSpace = true)
    (hexists : release_exists w.probe (make_new_state state) = Except.ok true) :
    ((upgrade_new_debian_release state true w flag0).2.2.take 2 =
      [BEv.flagWrite "progress", BEv.upgradeStart]) ∧
    (w.upgradeRes = Except.ok () →
      upgrade_new_debian_release state true w flag0 =
        (RETCODE_OK, none, [BEv.flagWrite "progress", BEv.upgradeStart, BEv.flagRemove])) ∧
    (∀ e, w.upgradeRes = Except.error e → update_system_catch e ≠ RETCODE_OK →
      (upgrade_new_debian_release state true w flag0).1 = update_system_catch e ∧
      (upgrade_new_debian_release state true w flag0).2.1 = some "error") := by
  unfold upgrade_new_debian_release
  simp only [hspace, hexists, Bool.not_true, Bool.false_eq_true, if_false]
  refine ⟨?_, ?_, ?_⟩
  · match hu : w.upgradeRes with
    | Except.ok _ => simp
    | Except.error e =>
      by_cases h : update_system_catch e = RETCODE_OK
      · simp [h]
      · simp [h]
  · intro hu
    simp [hu]
  · intro e hu hne
    simp [hu, hne]

/-- Witness for C9 at a concrete input. -/
theorem upgrade_debian_progress_flag_witness :
    (upgrade_new_debian_release ⟨"stable", "wb6/stretch", "", true⟩ true
      ⟨true, Except.ok (), fun _ => ProbeResult.success, Except.error PyExc.userAbort⟩ none).1 =
      update_system_catch PyExc.userAbort ∧
    (upgrade_new_debian_release ⟨"stable", "wb6/stretch", "", true⟩ true
      ⟨true, Except.ok (), fun _ => ProbeResult.success, Except.error PyExc.userAbort⟩ none).2.1 =
      some "error" :=
  (upgrade_debian_progress_flag ⟨"stable", "wb6/stretch", "", true⟩
    ⟨true, Except.ok (), fun _ => ProbeResult.success, Except.error PyExc.userAbort⟩ none
    rfl (by decide)).2.2 PyExc.userAbort rfl (by decide)

/-- C9 counterexample: when the remote target is absent the procedure
returns the non-success code RETCODE_NO_TARGET, yet the progress flag
file is left untouched (absent here), not set to "error": the
`return RETCODE_NO_TARGET` inside the try block bypasses the error-flag
epilogue that only runs after the try statement completes. -/
theorem upgrade_debian_no_target_flag_untouched :
    upgrade_new_debian_release ⟨"stable", "wb6/stretch", "", true⟩ true
      ⟨true, Except.ok (), fun _ => ProbeResult.httpErrorCode 404, Except.ok ()⟩ none =
      (RETCODE_NO_TARGET, none, []) ∧
    RETCODE_NO_TARGET ≠ RETCODE_OK := by
  exact ⟨by decide, by decide⟩

/-! ## Round-trip lemmas (C7) -/

lemma strEq (a b : String) (h : a.data = b.data) : a = b := by
  cases a; cases b; exact congrArg String.mk h

lemma string_mk_data (s : String) : String.mk s.data = s := rfl

lemma data_append (a b : String) : (a ++ b).data = a.data ++ b.data := rfl

lemma splitChL_append_sep (sep : Char) (a b : List Char) (ha : sep ∉ a) :
    splitChL sep (a ++ sep :: b) = a :: splitChL sep b := by
  induction a with
  | nil => simp [splitChL]
  | cons c a ih =>
    have hc : ¬ c = sep := fun h => ha (by simp [h])
    have ha2 : sep ∉ a := fun h => ha (List.mem_cons_of_mem _ h)
    rw [List.cons_append]
    simp only [splitChL, if_neg hc, ih ha2]

lemma splitChL_no_sep (sep : Char) (a : List Char) (ha : sep ∉ a) :
    splitChL sep a = [a] := by
  induction a with
  | nil => rfl
  | cons c a ih =>
    have hc : ¬ c = sep := fun h => ha (by simp [h])
    have ha2 : sep ∉ a := fun h => ha (List.mem_cons_of_mem _ h)
    simp only [splitChL, if_neg hc, ih ha2]

lemma string_ne_empty_of_data (s : String) (h : s.data ≠ []) : s ≠ "" := by
  intro he
  exact h (by rw [he])

/-- pyLines of the generated sources file: the five header lines followed
by the deb line, provided the deb line has no newline and is non-empty. -/
lemma pyLines_header (tail : String) (htail : (Char.ofNat 10) ∉ tail.data)
    (hne : tail.data ≠ []) :
    pyLines (sourcesHeader ++ tail) =
      ["# This file is automatically generated by wb-release.",
       "# DO NOT EDIT THIS FILE!", "#",
       "# If you want to switch to testing, use command",
       "#   wb-release -t testing", tail] := by
  have h0 : (sourcesHeader ++ tail).data =
      ("# This file is automatically generated by wb-release.").data ++ (Char.ofNat 10) ::
      (("# DO NOT EDIT THIS FILE!").data ++ (Char.ofNat 10) ::
      (("#").data ++ (Char.ofNat 10) ::
      (("# If you want to switch to testing, use command").data ++ (Char.ofNat 10) ::
      (("#   wb-release -t testing").data ++ (Char.ofNat 10) :: tail.data)))) := rfl
  unfold pyLines pySplitAll
  rw [h0]
  rw [splitChL_append_sep _ _ _ (by decide), splitChL_append_sep _ _ _ (by decide),
      splitChL_append_sep _ _ _ (by decide), splitChL_append_sep _ _ _ (by decide),
      splitChL_append_sep _ _ _ (by decide), splitChL_no_sep _ _ htail]
  simp only [List.map_cons, List.map_nil, string_mk_data]
  have hlast : tail ≠ "" := string_ne_empty_of_data tail hne
  simp [hlast]

lemma pyTakeBefore_eq_self (sep : Char) (s : String) (h : sep ∉ s.data) :
    pyTakeBefore sep s = s := by
  unfold pyTakeBefore
  have : s.data.takeWhile (fun c => !(c == sep)) = s.data := by
    apply List.takeWhile_eq_self_iff.mpr
    intro a ha
    have : ¬ a = sep := fun he => h (he ▸ ha)
    simp [this]
  rw [this, string_mk_data]

lemma pyRstrip_ends_main (s : String) : pyRstrip (s ++ " main") = s ++ " main" := by
  unfold pyRstrip
  apply strEq
  have h1 : (s ++ " main").data = s.data ++ [' ', 'm', 'a', 'i', 'n'] := rfl
  rw [h1]
  simp [List.reverse_append, List.dropWhile, charIn, pyWhitespace]

lemma pyStartsWith_append (p r : String) : pyStartsWith p (p ++ r) = true := by
  unfold pyStartsWith
  rw [data_append]
  exact List.isPrefixOf_iff_prefix.mpr (List.prefix_append _ _)

lemma pySplitGo_append_no_sep (sep : Char) (a : List Char) (b : List Char) (n : Nat)
    (ha : sep ∉ a) : ∀ acc, pySplitGo sep (a ++ b) n acc = pySplitGo sep b n (a.reverse ++ acc) := by
  induction a with
  | nil => intro acc; simp
  | cons c a ih =>
    intro acc
    have hc : ¬ c = sep := fun h => ha (by simp [h])
    have ha2 : sep ∉ a := fun h => ha (List.mem_cons_of_mem _ h)
    rw [List.cons_append]
    simp only [pySplitGo, if_neg hc, ih ha2]
    simp

lemma pySplitGo_sep (sep : Char) (b : List Char) (acc : List Char) (m : Nat) :
    pySplitGo sep (sep :: b) (Nat.succ m) acc = String.mk acc.reverse :: pySplitGo sep b m [] := by
  simp [pySplitGo]

lemma pySplitGo_no_sep (sep : Char) (a : List Char) (n : Nat) (ha : sep ∉ a) :
    ∀ acc, pySplitGo sep a n acc = [String.mk (acc.reverse ++ a)] := by
  induction a with
  | nil => intro acc; simp [pySplitGo]
  | cons c a ih =>
    intro acc
    have hc : ¬ c = sep := fun h => ha (by simp [h])
    have ha2 : sep ∉ a := fun h => ha (List.mem_cons_of_mem _ h)
    simp only [pySplitGo, if_neg hc, ih ha2]
    simp

lemma mem_pyRstripChars (cs : String) (s : String) (c : Char)
    (h : c ∈ (pyRstripChars cs s).data) : c ∈ s.data := by
  unfold pyRstripChars at h
  simp only [List.mem_reverse] at h
  have := (List.dropWhile_sublist _).subset h
  simpa using this

/-- Fields free of space, newline and '#': the conditions under which the
deb line survives the sources-list round trip. -/
def plainField (s : String) : Prop :=
  ∀ c ∈ s.data, c ≠ Char.ofNat 32 ∧ c ≠ Char.ofNat 10 ∧ c ≠ Char.ofNat 35

instance (s : String) : Decidable (plainField s) := by
  unfold plainField; infer_instance

lemma sourcesSuiteLines_skip (l : String) (ls : List String)
    (h : pyStartsWith "deb http" (pyRstrip (pyTakeBefore (Char.ofNat 35) l)) = false) :
    sourcesSuiteLines (l :: ls) = sourcesSuiteLines ls := by
  simp only [sourcesSuiteLines, h]
  simp

lemma url_decomp (s : SystemState) :
    make_full_repo_url s DEFAULT_REPO_URL =
      "http://deb.wirenboard.com" ++ pyRstripChars " /" ("/" ++ s.repo_pref) ++ "/" ++ s.target := by
  simp only [make_full_repo_url]
  rw [show pyStripChars " /" DEFAULT_REPO_URL = "http://deb.wirenboard.com" from by decide]

lemma url_plain (s : SystemState) (h2 : plainField s.target) (h3 : plainField s.repo_pref) :
    ∀ c ∈ (make_full_repo_url s DEFAULT_REPO_URL).data,
      c ≠ Char.ofNat 32 ∧ c ≠ Char.ofNat 10 ∧ c ≠ Char.ofNat 35 := by
  intro c hc
  rw [url_decomp] at hc
  simp only [data_append, List.mem_append] at hc
  rcases hc with ((hc | hc) | hc) | hc
  · exact (by decide : ∀ c ∈ ("http://deb.wirenboard.com" : String).data,
      c ≠ Char.ofNat 32 ∧ c ≠ Char.ofNat 10 ∧ c ≠ Char.ofNat 35) c hc
  · have hmem := mem_pyRstripChars " /" ("/" ++ s.repo_pref) c hc
    rw [data_append] at hmem
    rcases List.mem_append.mp hmem with hmem | hmem
    · exact (by decide : ∀ c ∈ ("/" : String).data,
        c ≠ Char.ofNat 32 ∧ c ≠ Char.ofNat 10 ∧ c ≠ Char.ofNat 35) c hmem
    · exact h3 c hmem
  · exact (by decide : ∀ c ∈ ("/" : String).data,
      c ≠ Char.ofNat 32 ∧ c ≠ Char.ofNat 10 ∧ c ≠ Char.ofNat 35) c hc
  · exact h2 c hc

lemma pySplitGo_sep2 (sep : Char) (b acc : List Char) (n : Nat) (hn : n ≠ 0) :
    pySplitGo sep (sep :: b) n acc = String.mk acc.reverse :: pySplitGo sep b (n - 1) [] := by
  cases n with
  | zero => exact absurd rfl hn
  | succ m => simp [pySplitGo]

lemma tail_data_decomp (s : SystemState) :
    ("deb " ++ make_full_repo_url s DEFAULT_REPO_URL ++ " " ++ s.suite ++ " main").data =
      "deb".data ++ (Char.ofNat 32) :: ((make_full_repo_url s DEFAULT_REPO_URL).data ++
        (Char.ofNat 32) :: (s.suite.data ++ (Char.ofNat 32) :: "main".data)) := by
  simp only [data_append, List.append_assoc]
  rfl

lemma url_data_decomp (s : SystemState) :
    (make_full_repo_url s DEFAULT_REPO_URL).data =
      "http://deb.wirenboard.com".data ++ ((pyRstripChars " /" ("/" ++ s.repo_pref)).data ++
        ("/".data ++ s.target.data)) := by
  rw [url_decomp]
  simp only [data_append, List.append_assoc]

/-- C7 (amended): writing the repository-list file and re-deriving the
suite from its content returns the original suite, for every SystemState
whose suite is non-empty and whose suite, target and repo_prefix contain
no space, newline or '#' characters.  Without those conditions the
round trip can fail (see the counterexample). -/
theorem sources_list_roundtrip (s : SystemState)
    (hsuite : s.suite ≠ "")
    (hplain1 : plainField s.suite) (hplain2 : plainField s.target)
    (hplain3 : plainField s.repo_pref) :
    read_apt_sources_list_suite (generate_sources_list s DEFAULT_REPO_URL) =
      Except.ok s.suite := by
  have hup := url_plain s hplain2 hplain3
  have hgen : generate_sources_list s DEFAULT_REPO_URL =
      sourcesHeader ++ ("deb " ++ make_full_repo_url s DEFAULT_REPO_URL ++ " " ++ s.suite ++ " main") := by
    apply strEq
    simp [generate_sources_list, data_append, List.append_assoc]
  have htail_nl : (Char.ofNat 10) ∉
      ("deb " ++ make_full_repo_url s DEFAULT_REPO_URL ++ " " ++ s.suite ++ " main").data := by
    rw [tail_data_decomp]
    intro h
    simp only [List.mem_append, List.mem_cons] at h
    rcases h with h | h | h | h | h | h
    · exact absurd h (by decide)
    · exact absurd h (by decide)
    · exact (hup _ h).2.1 rfl
    · exact absurd h (by decide)
    · exact (hplain1 _ h).2.1 rfl
    · rcases h with h | h
      · exact absurd h (by decide)
      · exact absurd h (by decide)
  have htail_ne : ("deb " ++ make_full_repo_url s DEFAULT_REPO_URL ++ " " ++ s.suite ++ " main").data ≠ [] := by
    rw [tail_data_decomp]
    simp
  have hhash : (Char.ofNat 35) ∉
      ("deb " ++ make_full_repo_url s DEFAULT_REPO_URL ++ " " ++ s.suite ++ " main").data := by
    rw [tail_data_decomp]
    intro h
    simp only [List.mem_append, List.mem_cons] at h
    rcases h with h | h | h | h | h | h
    · exact absurd h (by decide)
    · exact absurd h (by decide)
    · exact (hup _ h).2.2 rfl
    · exact absurd h (by decide)
    · exact (hplain1 _ h).2.2 rfl
    · rcases h with h | h
      · exact absurd h (by decide)
      · exact absurd h (by decide)
  have hline1 : pyTakeBefore (Char.ofNat 35)
      ("deb " ++ make_full_repo_url s DEFAULT_REPO_URL ++ " " ++ s.suite ++ " main") =
      "deb " ++ make_full_repo_url s DEFAULT_REPO_URL ++ " " ++ s.suite ++ " main" :=
    pyTakeBefore_eq_self _ _ hhash
  have hline2 : pyRstrip ("deb " ++ make_full_repo_url s DEFAULT_REPO_URL ++ " " ++ s.suite ++ " main") =
      "deb " ++ make_full_repo_url s DEFAULT_REPO_URL ++ " " ++ s.suite ++ " main" :=
    pyRstrip_ends_main _
  have hstart : pyStartsWith "deb http"
      ("deb " ++ make_full_repo_url s DEFAULT_REPO_URL ++ " " ++ s.suite ++ " main") = true := by
    unfold pyStartsWith
    apply List.isPrefixOf_iff_prefix.mpr
    refine ⟨"://deb.wirenboard.com".data ++ ((pyRstripChars " /" ("/" ++ s.repo_pref)).data ++
      ("/".data ++ s.target.data)) ++ (Char.ofNat 32) :: (s.suite.data ++ (Char.ofNat 32) :: "main".data), ?_⟩
    rw [tail_data_decomp, url_data_decomp]
    simp only [List.append_assoc]
    rfl
  have hurlsp : (Char.ofNat 32) ∉ (make_full_repo_url s DEFAULT_REPO_URL).data :=
    fun h => (hup _ h).1 rfl
  have hsuitesp : (Char.ofNat 32) ∉ s.suite.data :=
    fun h => (hplain1 _ h).1 rfl
  have hsplit : pySplitChar (Char.ofNat 32) 4
      ("deb " ++ make_full_repo_url s DEFAULT_REPO_URL ++ " " ++ s.suite ++ " main") =
      ["deb", make_full_repo_url s DEFAULT_REPO_URL, s.suite, "main"] := by
    unfold pySplitChar
    rw [tail_data_decomp]
    rw [pySplitGo_append_no_sep _ _ _ _ (by decide)]
    rw [pySplitGo_sep2 _ _ _ _ (by decide)]
    rw [pySplitGo_append_no_sep _ _ _ _ hurlsp]
    rw [pySplitGo_sep2 _ _ _ _ (by decide)]
    rw [pySplitGo_append_no_sep _ _ _ _ hsuitesp]
    rw [pySplitGo_sep2 _ _ _ _ (by decide)]
    rw [pySplitGo_no_sep _ _ _ (by decide)]
    simp [string_mk_data]
  rw [hgen]
  unfold read_apt_sources_list_suite
  rw [pyLines_header _ htail_nl htail_ne]
  rw [sourcesSuiteLines_skip _ _ (by decide), sourcesSuiteLines_skip _ _ (by decide),
      sourcesSuiteLines_skip _ _ (by decide), sourcesSuiteLines_skip _ _ (by decide),
      sourcesSuiteLines_skip _ _ (by decide)]
  simp only [sourcesSuiteLines, hline1, hline2, hstart, if_true, hsplit]
  rfl

/-- Witness for C7 at a concrete input. -/
theorem sources_list_roundtrip_witness :
    ("testing" : String) ≠ "" ∧ plainField "testing" ∧ plainField "wb6/stretch" ∧
    plainField "my/pfx" ∧
    read_apt_sources_list_suite
      (generate_sources_list ⟨"testing", "wb6/stretch", "my/pfx", true⟩ DEFAULT_REPO_URL) =
      Except.ok "testing" :=
  ⟨by decide, by decide, by decide, by decide,
   sources_list_roundtrip ⟨"testing", "wb6/stretch", "my/pfx", true⟩
     (by decide) (by decide) (by decide) (by decide)⟩

/-- C7 counterexample: a non-empty suite containing a space breaks the
round trip, because the reader splits the deb line on spaces: the suite
"a b" is read back as "a". -/
theorem sources_list_roundtrip_fails_space_suite :
    ("a b" : String) ≠ "" ∧
    read_apt_sources_list_suite
      (generate_sources_list ⟨"a b", "wb6/stretch", "", true⟩ DEFAULT_REPO_URL) =
      Except.ok "a" ∧
    ("a" : String) ≠ "a b" := by
  exact ⟨by decide, by decide, by decide⟩

/-! ## read_wb_release_file characterization (C10) -/

/-- A line the release-file reader accepts: non-empty after stripping,
and either a '#'-prefixed comment or containing an '=' separator. -/
def wbLineOk (l : String) : Prop :=
  pyStrip l ≠ "" ∧
    ((pyStrip l).data.head? = some (Char.ofNat 35) ∨ (Char.ofNat 61) ∈ (pyStrip l).data)

instance (l : String) : Decidable (wbLineOk l) := by
  unfold wbLineOk; infer_instance

def parsedKeyOf (l : String) : Option String :=
  match parse_release_line l with
  | Except.ok (some kv) => some kv.1
  | _ => none

/-- The keys the reader would collect from a file's well-formed lines. -/
def wbKeys (content : String) : List String :=
  (pyLines content).filterMap parsedKeyOf

lemma splitOnceL_isSome (sep : Char) (a : List Char) :
    (splitOnceL sep a).isSome = true ↔ sep ∈ a := by
  induction a with
  | nil => simp [splitOnceL]
  | cons c cs ih =>
    by_cases h : c = sep
    · subst h; simp [splitOnceL]
    · simp [splitOnceL, h, ih]
      intro he
      exact absurd he.symm h

lemma parse_ok_iff (l : String) :
    (∃ x, parse_release_line l = Except.ok x) ↔ wbLineOk l := by
  unfold parse_release_line wbLineOk
  cases hd : (pyStrip l).data.head? with
  | none =>
    have : pyStrip l = "" := strEq _ _ (by simpa using hd)
    simp [hd, this]
  | some c =>
    have hne : pyStrip l ≠ "" := by
      intro he
      rw [he] at hd
      exact Option.noConfusion hd
    by_cases hc : c = Char.ofNat 35
    · subst hc
      simp [hd, hne]
    · unfold pySplitOnce
      cases hso : splitOnceL (Char.ofNat 61) (pyStrip l).data with
      | none =>
        have hmem : ¬ (Char.ofNat 61) ∈ (pyStrip l).data := by
          rw [← splitOnceL_isSome, hso]
          simp
        simp [hd, hso, hc, hne, hmem]
      | some kv =>
        have hmem : (Char.ofNat 61) ∈ (pyStrip l).data := by
          rw [← splitOnceL_isSome, hso]
          rfl
        simp [hd, hso, hc, hne, hmem]

lemma readFold_ok_iff (ls : List String) : ∀ d : List (String × String),
    (∃ r, readFold d ls = Except.ok r) ↔
      ∀ l ∈ ls, ∃ x, parse_release_line l = Except.ok x := by
  induction ls with
  | nil => intro d; simp [readFold]
  | cons l ls ih =>
    intro d
    cases hp : parse_release_line l with
    | error e => simp [readFold, hp]
    | ok o =>
      cases o with
      | none => simp [readFold, hp, ih]
      | some kv => simp [readFold, hp, ih]

lemma dictKeys_update (d : List (String × String)) (k0 v : String) :
    dictKeys (d.map (fun p => if p.1 = k0 then (k0, v) else p)) = dictKeys d := by
  induction d with
  | nil => rfl
  | cons p d ih =>
    by_cases h : p.1 = k0
    · simp [dictKeys, h] at ih ⊢
      exact ih
    · simp [dictKeys, h] at ih ⊢
      exact ih

lemma dictKeys_dictSet (d : List (String × String)) (k0 v k : String) :
    k ∈ dictKeys (dictSet d k0 v) ↔ k ∈ dictKeys d ∨ k = k0 := by
  unfold dictSet
  by_cases hc : (dictKeys d).contains k0
  · rw [if_pos hc, dictKeys_update]
    have hk0 : k0 ∈ dictKeys d := by
      simpa using hc
    constructor
    · exact Or.inl
    · rintro (h | h)
      · exact h
      · exact h ▸ hk0
  · rw [if_neg hc]
    simp [dictKeys]

lemma readFold_keys (ls : List String) :
    ∀ d r, readFold d ls = Except.ok r →
      ∀ k, (k ∈ dictKeys r ↔ k ∈ dictKeys d ∨ k ∈ ls.filterMap parsedKeyOf) := by
  induction ls with
  | nil =>
    intro d r h k
    simp only [readFold] at h
    cases h
    simp
  | cons l ls ih =>
    intro d r h k
    cases hp : parse_release_line l with
    | error e => simp [readFold, hp] at h
    | ok o =>
      cases o with
      | none =>
        simp only [readFold, hp] at h
        have := ih d r h k
        simp only [List.filterMap_cons, parsedKeyOf, hp] at this ⊢
        exact this
      | some kv =>
        simp only [readFold, hp] at h
        have := ih (dictSet d kv.1 kv.2) r h k
        rw [dictKeys_dictSet] at this
        simp only [List.filterMap_cons, parsedKeyOf, hp, List.mem_cons] at this ⊢
        rw [this]
        tauto

lemma dictGet_isSome (d : List (String × String)) (k : String) :
    (dictGet d k).isSome = true ↔ k ∈ dictKeys d := by
  induction d with
  | nil => simp [dictGet, dictKeys]
  | cons p d ih =>
    by_cases h : p.1 = k
    · simp [dictGet, dictKeys, List.find?_cons, h]
    · simp only [dictGet, dictKeys, List.find?_cons] at ih ⊢
      rw [show (decide (p.1 = k)) = false from by simp [h]]
      simp only [List.map_cons, List.mem_cons]
      rw [ih]
      constructor
      · exact Or.inr
      · rintro (he | hm)
        · exact absurd he.symm h
        · exact hm

lemma release_info_ok_iff (d : List (String × String)) :
    (∃ ri, release_info_of_dict d = Except.ok ri) ↔
      (∀ k, k ∈ dictKeys d ↔ k ∈ wbKeyNames) := by
  constructor
  · rintro ⟨ri, hri⟩
    unfold release_info_of_dict at hri
    cases h1 : dictGet d "release_name" with
    | none => rw [h1] at hri; cases h2 : dictGet d "suite" <;> cases h3 : dictGet d "target" <;>
        cases h4 : dictGet d "repo_prefix" <;> simp [h2, h3, h4] at hri
    | some rn =>
    cases h2 : dictGet d "suite" with
    | none => rw [h1, h2] at hri; cases h3 : dictGet d "target" <;>
        cases h4 : dictGet d "repo_prefix" <;> simp [h3, h4] at hri
    | some su =>
    cases h3 : dictGet d "target" with
    | none => rw [h1, h2, h3] at hri; cases h4 : dictGet d "repo_prefix" <;> simp [h4] at hri
    | some tg =>
    cases h4 : dictGet d "repo_prefix" with
    | none => rw [h1, h2, h3, h4] at hri; simp at hri
    | some rp =>
      rw [h1, h2, h3, h4] at hri
      have hri2 : (if (d.all fun p => wbKeyNames.contains p.1) = true then
          Except.ok ({ release_name := rn, suite := su, target := tg, repo_pref := rp } : ReleaseInfo)
          else Except.error PyExc.typeError) = Except.ok ri := hri
      have hall : (d.all fun p => wbKeyNames.contains p.1) = true := by
        by_contra hno
        rw [if_neg hno] at hri2
        exact Except.noConfusion hri2
      intro k
      constructor
      · intro hk
        rcases List.mem_map.mp hk with ⟨p, hp, hpk⟩
        have := List.all_eq_true.mp hall p hp
        rw [← hpk]
        simpa using this
      · intro hk
        have hof : ∀ kk, dictGet d kk = none → ¬ kk ∈ dictKeys d := by
          intro kk hkk hmem
          have := (dictGet_isSome d kk).mpr hmem
          rw [hkk] at this
          exact Bool.noConfusion this
        rcases (by simpa [wbKeyNames] using hk : k = "release_name" ∨ k = "suite" ∨ k = "target" ∨ k = "repo_prefix") with h | h | h | h
        · subst h; exact (dictGet_isSome d _).mp (by rw [h1]; rfl)
        · subst h; exact (dictGet_isSome d _).mp (by rw [h2]; rfl)
        · subst h; exact (dictGet_isSome d _).mp (by rw [h3]; rfl)
        · subst h; exact (dictGet_isSome d _).mp (by rw [h4]; rfl)
  · intro hk
    have h1 : (dictGet d "release_name").isSome = true :=
      (dictGet_isSome d _).mpr ((hk _).mpr (by simp [wbKeyNames]))
    have h2 : (dictGet d "suite").isSome = true :=
      (dictGet_isSome d _).mpr ((hk _).mpr (by simp [wbKeyNames]))
    have h3 : (dictGet d "target").isSome = true :=
      (dictGet_isSome d _).mpr ((hk _).mpr (by simp [wbKeyNames]))
    have h4 : (dictGet d "repo_prefix").isSome = true :=
      (dictGet_isSome d _).mpr ((hk _).mpr (by simp [wbKeyNames]))
    rcases Option.isSome_iff_exists.mp h1 with ⟨rn, hrn⟩
    rcases Option.isSome_iff_exists.mp h2 with ⟨su, hsu⟩
    rcases Option.isSome_iff_exists.mp h3 with ⟨tg, htg⟩
    rcases Option.isSome_iff_exists.mp h4 with ⟨rp, hrp⟩
    have hall : d.all (fun p => wbKeyNames.contains p.1) = true := by
      apply List.all_eq_true.mpr
      intro p hp
      have : p.1 ∈ dictKeys d := List.mem_map.mpr ⟨p, hp, rfl⟩
      have := (hk p.1).mp this
      simpa using this
    refine ⟨⟨rn, su, tg, rp⟩, ?_⟩
    unfold release_info_of_dict
    rw [hrn, hsu, htg, hrp]
    show (if (d.all fun p => wbKeyNames.contains p.1) = true then
        Except.ok ({ release_name := rn, suite := su, target := tg, repo_pref := rp } : ReleaseInfo)
        else Except.error PyExc.typeError) = _
    rw [if_pos hall]

/-- C10 (confirmed): read_wb_release_file succeeds exactly when every
line is non-empty after stripping and is either a '#'-prefixed comment or
contains an '=' separator, and the parsed keys are exactly
{release_name, suite, target, repo_prefix}; in particular a file with a
blank line or a non-comment line without '=' makes it raise rather than
skip the line. -/
theorem read_wb_release_file_wellformed (content : String) :
    (∃ ri, read_wb_release_file content = Except.ok ri) ↔
      ((∀ l ∈ pyLines content, wbLineOk l) ∧
       (∀ k, k ∈ wbKeys content ↔ k ∈ wbKeyNames)) := by
  unfold read_wb_release_file
  cases hf : readFold [] (pyLines content) with
  | error e =>
    constructor
    · rintro ⟨ri, hri⟩
      exact Except.noConfusion hri
    · rintro ⟨hall, _⟩
      have hex : ∃ r, readFold [] (pyLines content) = Except.ok r :=
        (readFold_ok_iff (pyLines content) []).mpr
          (fun l hl => (parse_ok_iff l).mpr (hall l hl))
      rcases hex with ⟨r, hr⟩
      rw [hf] at hr
      exact Except.noConfusion hr
  | ok d =>
    have hall : ∀ l ∈ pyLines content, ∃ x, parse_release_line l = Except.ok x :=
      (readFold_ok_iff (pyLines content) []).mp ⟨d, hf⟩
    have hkeysd : ∀ k, (k ∈ dictKeys d ↔ k ∈ wbKeys content) := by
      intro k
      have h := readFold_keys (pyLines content) [] d hf k
      simpa [dictKeys, wbKeys] using h
    constructor
    · rintro ⟨ri, hri⟩
      refine ⟨fun l hl => (parse_ok_iff l).mp (hall l hl), ?_⟩
      intro k
      have hex : ∃ ri2, release_info_of_dict d = Except.ok ri2 := ⟨ri, hri⟩
      have h := (release_info_ok_iff d).mp hex k
      rw [← hkeysd k]
      exact h
    · rintro ⟨_, hkeys⟩
      have h : ∀ k, k ∈ dictKeys d ↔ k ∈ wbKeyNames :=
        fun k => (hkeysd k).trans (hkeys k)
      exact (release_info_ok_iff d).mpr h
